import Mathlib

/-!
Verification of the Cicada AI ComfyUI node collection (`nodes.py`) against its
natural-language specification.  The Python source is shallowly embedded:
pure computations become Lean functions, the stateful `CicadaAuth` token
manager becomes an explicit state-passing function, network interactions are
modelled by passing the sequence of remote responses (or request failures) as
explicit inputs, and `time.time()` is modelled by an explicit `now : ℚ`
parameter (time is frozen for the duration of a single call).  The MD5
fingerprint of `config.json` credentials is kept abstract: the embedding works
directly with fingerprint values (strings), since only fingerprint equality is
ever inspected by the code.
-/

set_option autoImplicit false

namespace Cicada

/-! ## String containment (Python's `kw in msg`) -/

/-- Is `a` a (contiguous) prefix of `b`?  Mirrors Python's string prefix test
used to build up substring containment. -/
def listIsPrefix : List Char → List Char → Bool
  | [], _ => true
  | _ :: _, [] => false
  | a :: as, b :: bs => a = b && listIsPrefix as bs

/-- Is `pat` a contiguous substring of `s`?  Embeds Python's `pat in s`. -/
def isSubstr (pat : List Char) : List Char → Bool
  | [] => listIsPrefix pat []
  | c :: rest => listIsPrefix pat (c :: rest) || isSubstr pat rest

/-- String-level substring containment, Python's `kw in msg`. -/
def strContains (msg kw : String) : Bool :=
  isSubstr kw.data msg.data

/-! ## Billing-error detection (`check_billing_error`, nodes.py lines 537-555)

`check_billing_error(msg)` returns silently when `msg` is falsy, and raises a
distinguished billing exception when any of the billing keywords occurs in
`msg`. The embedding returns `true` exactly when the billing exception is
raised. -/

/-- The billing keywords of `check_billing_error` (nodes.py line 546). -/
def billing_keywords : List String :=
  ["扣费失败", "余额不足", "蝉豆不足", "蝉豆余额", "欠费"]

/-- Embeds `check_billing_error` (nodes.py lines 537-555): `true` iff the
billing exception is raised for message `msg`. -/
def check_billing_error (msg : String) : Bool :=
  !msg.isEmpty && billing_keywords.any (fun kw => strContains msg kw)

/-! ## Credential & token manager (`CicadaAuth`, nodes.py lines 39-217)

State components mirror the class attributes `_token`, `_token_expire`,
`_token_config_hash`.  `_config` / `_config_hash` are re-derived on every
`get_token()` call from `config.json`; the embedding takes the freshly
recomputed fingerprint (`h`) as an input.  The token-cache file on disk and
the outcome of the refresh request are further explicit inputs. -/

/-- The token-related class state of `CicadaAuth`. -/
structure TokenState where
  token : Option String
  token_expire : ℚ
  token_config_hash : Option String
  deriving DecidableEq, Repr

/-- `CicadaAuth._load_token_cache` input: the on-disk token cache file.
`missing` = file absent (class fields left unchanged), `corrupt` = read/parse
raised (fields reset), `data` = parsed JSON fields. -/
inductive DiskRead where
  | missing
  | corrupt
  | data (tok : Option String) (expire : ℚ) (hash : Option String)
  deriving DecidableEq, Repr

/-- Outcome of the `_refresh_token` API call: `fail` = the token request
raised; `ok tok` = the request succeeded and `data.get("access_token")`
returned `tok` (`none` when the key is absent). -/
inductive RefreshOutcome where
  | fail
  | ok (tok : Option String)
  deriving DecidableEq, Repr

/-- Which code path produced the token returned by `get_token()`:
the in-memory fast path (step 2), the disk-cache path (step 3), or a fresh
`_refresh_token` call (step 4). -/
inductive TokenSource where
  | memory
  | disk
  | refreshed
  deriving DecidableEq, Repr

/-- Result of `get_token()`: the returned token string together with the code
path that produced it and the final class state, or the raised exception. -/
inductive AuthResult where
  | ok (tok : String) (src : TokenSource) (st : TokenState)
  | err (msg : String)
  deriving DecidableEq, Repr

/-- The cleared token state produced when `get_token` invalidates the held
token (`_token = None; _token_expire = 0; _token_config_hash = None`). -/
def clearTok : TokenState := ⟨none, 0, none⟩

/-- Embeds `CicadaAuth._load_token_cache` (nodes.py lines 107-120) acting on
state `st`. -/
def loadTokenCache (st : TokenState) : DiskRead → TokenState
  | .missing => st
  | .corrupt => clearTok
  | .data tok expire hash => ⟨tok, expire, hash⟩

/-- Embeds `CicadaAuth._refresh_token` (nodes.py lines 144-165): on request
success the class fields are set to the new token, `now + 24*3600`, and the
current fingerprint `h`; an empty/absent `access_token` raises. -/
def refreshToken (h : String) (now : ℚ) : RefreshOutcome → AuthResult
  | .fail => .err "token refresh request failed"
  | .ok tok =>
    match tok with
    | none => .err "API returned empty access_token"
    | some t =>
      if t.isEmpty then .err "API returned empty access_token"
      else .ok t .refreshed ⟨some t, now + 24 * 3600, some h⟩

/-- Steps 3-4 of `CicadaAuth.get_token` (nodes.py lines 192-208), entered
with the state `st2` produced by `_load_token_cache`: the disk-restored token
is returned only when non-empty, fresh, and bound to the current fingerprint
`h`; otherwise (the mismatch branch clears the fields, which the subsequent
refresh overwrites anyway) `_refresh_token` runs. -/
def get_token_disk (st2 : TokenState) (h : String) (now : ℚ)
    (r : RefreshOutcome) : AuthResult :=
  match st2.token with
  | some t =>
    if t ≠ "" ∧ now < st2.token_expire - 300 ∧ st2.token_config_hash = some h then
      .ok t .disk st2
    else refreshToken h now r
  | none => refreshToken h now r

/-- Steps 2-4 of `CicadaAuth.get_token` (nodes.py lines 188-208), entered
with the state `st1` left after the credential-change check. When a token is
held in memory, the disk restore (guarded by `cls._token is None`) is
skipped. -/
def get_token_cached (st1 : TokenState) (h : String) (dr : DiskRead)
    (now : ℚ) (r : RefreshOutcome) : AuthResult :=
  match st1.token with
  | some t =>
    -- step 2: in-memory fast path (`if cls._token and now < expire - 300`)
    if t ≠ "" ∧ now < st1.token_expire - 300 then .ok t .memory st1
    else refreshToken h now r
  | none =>
    -- step 3: disk restore (`if cls._token is None`)
    get_token_disk (loadTokenCache st1 dr) h now r

/-- Embeds `CicadaAuth.get_token` (nodes.py lines 167-208).
Inputs: prior class state `st`, the fingerprint `h` freshly recomputed from
`config.json` by `_load_config`, the on-disk token cache `dr`, the current
time `now`, and the refresh-request outcome `r`.  Step 1 is the credential
change detection (`_config_changed`, lines 139-142): the freshly recomputed
`_config_hash` is compared with the fingerprint bound to the held token, a
mismatch discarding the held token. -/
def get_token (st : TokenState) (h : String) (dr : DiskRead) (now : ℚ)
    (r : RefreshOutcome) : AuthResult :=
  get_token_cached (if st.token_config_hash = some h then st else clearTok)
    h dr now r

/-- The credential fingerprint recorded in the on-disk token cache
(`config_hash` field), `none` when the file is absent or unreadable. -/
def DiskRead.hash : DiskRead → Option String
  | .missing => none
  | .corrupt => none
  | .data _ _ h => h

/-! ## Voice clone result cache (`VoiceCloneCache`, nodes.py lines 222-296)

The persisted JSON mapping is embedded as an association list with Python
`dict` semantics (assignment overwrites in place, `del` removes, lookup finds
the unique binding). -/

/-- A cache value: `{"voice_id": ..., "model_type": ..., "created_at": ...}`. -/
structure CloneEntry where
  voice_id : String
  model_type : String
  created_at : ℚ
  deriving DecidableEq, Repr

/-- The in-memory cache dict. -/
abbrev CloneCache := List (String × CloneEntry)

/-- Embeds `VoiceCloneCache._make_key` (nodes.py lines 258-261):
`f"{file_hash}_{model_type}"`. -/
def make_key (file_hash model_type : String) : String :=
  file_hash ++ "_" ++ model_type

/-- Python dict lookup `cache.get(key)` on the association-list model. -/
def lookupKey : CloneCache → String → Option CloneEntry
  | [], _ => none
  | p :: rest, k => if p.1 = k then some p.2 else lookupKey rest k

/-- Python dict assignment `cache[key] = entry`: overwrite in place when the
key is present, append otherwise. -/
def insertKey (c : CloneCache) (k : String) (e : CloneEntry) : CloneCache :=
  if c.any (fun p => p.1 = k) then
    c.map (fun p => if p.1 = k then (k, e) else p)
  else
    c ++ [(k, e)]

/-- Python dict deletion `del cache[key]` (a no-op on the map when the key is
absent, matching `if key in self._cache`). -/
def eraseKey (c : CloneCache) (k : String) : CloneCache :=
  c.filter (fun p => p.1 ≠ k)

/-- Embeds `VoiceCloneCache.get` (nodes.py lines 263-273): returns the
`voice_id` of the entry, or `None` on a miss. -/
def cache_get (c : CloneCache) (file_hash model_type : String) : Option String :=
  (lookupKey c (make_key file_hash model_type)).map (fun e => e.voice_id)

/-- Embeds `VoiceCloneCache.put` (nodes.py lines 275-287); `t` is the
`time.time()` recorded in `created_at`. -/
def cache_put (c : CloneCache) (file_hash model_type voice_id : String)
    (t : ℚ) : CloneCache :=
  insertKey c (make_key file_hash model_type) ⟨voice_id, model_type, t⟩

/-- Embeds `VoiceCloneCache.remove` (nodes.py lines 289-296). -/
def cache_remove (c : CloneCache) (file_hash model_type : String) : CloneCache :=
  eraseKey c (make_key file_hash model_type)

/-! ## Lip-sync model option (`CicadaLipSyncNode`, nodes.py lines 1003-1006
and 1098) -/

/-- The declared option set of the lip-sync node's `model` input
(`INPUT_TYPES`, nodes.py line 1003). -/
def lip_sync_model_options : List String :=
  ["cicada-lip-sync", "cicada-lip-sync-pro"]

/-- Embeds `model_value = 1 if model == "cicada-lip-sync pro" else 0`
(nodes.py line 1098). -/
def lip_sync_model_value (model : String) : Nat :=
  if model = "cicada-lip-sync pro" then 1 else 0

/-! ## HTTP client wrapper (`api_request`, nodes.py lines 446-478)

The loop `for attempt in range(1, max_retries + 1)` issues at most
`max_retries` attempts; each attempt's outcome is an explicit input (indexed
by attempt number). Connection and timeout errors are retried (after a sleep,
not modelled), an `HTTPError` or any other exception re-raises immediately,
and falling off the loop raises the terminal "已重试" exception carrying the
last transient exception. -/

/-- Outcome of one `requests.request` attempt (after `raise_for_status`). -/
inductive AttemptOutcome where
  | ok (resp : Nat)
  | connErr (e : String)
  | timeoutErr (e : String)
  | httpErr (e : String)
  | otherExc (e : String)
  deriving DecidableEq, Repr

/-- Result of `api_request`: the response, an immediately re-raised
exception, or the terminal retries-exhausted exception with the last
transient exception. -/
inductive ReqResult where
  | ok (resp : Nat)
  | raised (e : String)
  | exhausted (lastExc : Option String)
  deriving DecidableEq, Repr

/-- Is the outcome a retried (connection/timeout) error, and its message. -/
def AttemptOutcome.transientMsg : AttemptOutcome → Option String
  | .connErr e => some e
  | .timeoutErr e => some e
  | _ => none

/-- The retry loop of `api_request` (nodes.py lines 456-478): `remaining`
attempts are left, the next attempt's outcome is `outcomes idx`, and
`lastExc` holds `last_exception`. -/
def api_request_go (outcomes : Nat → AttemptOutcome) :
    Nat → Nat → Option String → ReqResult
  | 0, _, lastExc => .exhausted lastExc
  | remaining + 1, idx, _lastExc =>
    match outcomes idx with
    | .ok r => .ok r
    | .connErr e => api_request_go outcomes remaining (idx + 1) (some e)
    | .timeoutErr e => api_request_go outcomes remaining (idx + 1) (some e)
    | .httpErr e => .raised e
    | .otherExc e => .raised e

/-- Embeds `api_request` (nodes.py lines 446-478), rate limiting and sleeps
abstracted away (they do not affect the returned value). -/
def api_request (max_retries : Nat) (outcomes : Nat → AttemptOutcome) : ReqResult :=
  api_request_go outcomes max_retries 0 none

/-- The default `max_retries=3` of `api_request` (nodes.py line 446). -/
def api_request_default_retries : Nat := 3

/-! ## JSON envelope layer (`api_json_request`, nodes.py lines 481-534)

Each issued HTTP request consumes the next envelope from the `responses`
list.  The nested `CicadaAuth.reset(); CicadaAuth.get_token()` performed in
the auth-retry branch is abstracted into `refresh : Option String` (`none` =
`get_token` raised, wrapped into the refresh-failure exception). The result
carries the headers of every request actually issued, in order, so that
theorems can speak about how often and with which token the request went
out. -/

/-- A parsed JSON envelope `{code, msg, data}`; `tag` stands for the  `data`
payload and identifies the response. -/
structure Envelope where
  code : ℤ
  msg : String
  tag : Nat
  deriving DecidableEq, Repr

/-- Python dict update `headers["access_token"] = new_token` on an existing
key. -/
def set_header (headers : List (String × String)) (k v : String) :
    List (String × String) :=
  headers.map (fun p => if p.1 = k then (k, v) else p)

/-- Embeds nodes.py lines 504-508: the token header is replaced only when the
`headers` dict already has an `"access_token"` key. -/
def update_auth_header (headers : List (String × String)) (t : String) :
    List (String × String) :=
  if headers.any (fun p => p.1 = "access_token") then
    set_header headers "access_token" t
  else headers

/-- Exceptions raised by `api_json_request`. -/
inductive JsonErr where
  | noResponse
  | refreshFailed (origCode : ℤ) (origMsg : String)
  | authTerminal (code : ℤ) (msg : String)
  | business (code : ℤ) (msg : String)
  deriving DecidableEq, Repr

/-- Result of `api_json_request` together with the trace of headers of every
issued request. -/
inductive JsonResult where
  | ok (env : Envelope) (issued : List (List (String × String)))
  | err (e : JsonErr) (issued : List (List (String × String)))
  deriving DecidableEq, Repr

/-- Embeds `api_json_request` (nodes.py lines 481-534). `responses` is the
sequence of envelopes the remote returns for successive issues of this
request, `headers` the `headers` kwarg, `retried` the `_retried_auth` flag,
and `refresh` the outcome of `CicadaAuth.get_token()` in the auth-retry
branch. -/
def api_json_request (refresh : Option String) :
    List Envelope → List (String × String) → Bool → JsonResult
  | [], _, _ => .err .noResponse []
  | r :: rest, headers, retried =>
    if r.code = 0 then .ok r [headers]
    else if (r.code = 10400 ∨ r.code = 10401) ∧ ¬retried then
      match refresh with
      | none => .err (.refreshFailed r.code r.msg) [headers]
      | some t =>
        match api_json_request refresh rest (update_auth_header headers t) true with
        | .ok env tr => .ok env (headers :: tr)
        | .err e tr => .err e (headers :: tr)
    else if r.code = 10400 ∨ r.code = 10401 then
      .err (.authTerminal r.code r.msg) [headers]
    else .err (.business r.code r.msg) [headers]

/-- Embeds the `api_json_request` call made by `CicadaAuth._refresh_token`
(nodes.py lines 150-155): it passes `_retried_auth=True` and no `headers`
kwarg. -/
def refresh_token_request (refresh : Option String) (responses : List Envelope) :
    JsonResult :=
  api_json_request refresh responses [] true

/-! ## Progress reporter (`CicadaProgress`, nodes.py lines 342-441)

The program computes stage percentages in IEEE-754 double arithmetic; the
embedding uses exact rationals.  Theorems below therefore assert only facts
that are insensitive to this difference: concrete evaluations are made at
weights whose every intermediate value is a dyadic rational exactly
representable as a double (where the float program and the exact embedding
coincide), and the only general arithmetic fact used about `update` is that
the inner-progress term vanishes at `inner = 0` — `span * 0 / 100` and
`start + 0.0` are exact in IEEE-754 arithmetic as well. -/

/-- One element of `self.stages` built by `CicadaProgress.__init__`. -/
structure Stage where
  name : String
  start_pct : ℚ
  span_pct : ℚ
  deriving DecidableEq, Repr

/-- `total_weight = sum(w for _, w in stages)` (nodes.py line 371). -/
def total_weight (stages : List (String × ℚ)) : ℚ :=
  (stages.map (fun p => p.2)).sum

/-- The `cumulative` loop of `CicadaProgress.__init__` (nodes.py
lines 373-381), with the program's double arithmetic idealized as exact
rationals; theorems evaluate it only at weights where the double computation
is exact, so the idealization is not load-bearing. -/
def mk_stages_go (total : ℚ) : List (String × ℚ) → ℚ → List Stage
  | [], _ => []
  | (n, w) :: rest, cumulative =>
    ⟨n, cumulative, w / total * 100⟩ ::
      mk_stages_go total rest (cumulative + w / total * 100)

/-- Embeds `CicadaProgress.__init__` (nodes.py lines 365-392): the normalized
stage list. -/
def mk_stages (stages : List (String × ℚ)) : List Stage :=
  mk_stages_go (total_weight stages) stages 0

/-- Python's `int()` on a rational: truncation toward zero. -/
def py_int (q : ℚ) : ℤ :=
  if q < 0 then -⌊-q⌋ else ⌊q⌋

/-- Embeds the displayed value of `CicadaProgress._set_progress` (nodes.py
line 396): `pct = max(0, min(100, int(pct)))`. -/
def set_progress_pct (pct : ℚ) : ℤ :=
  max 0 (min 100 (py_int pct))

/-- Embeds the stage lookup of `CicadaProgress.advance` (nodes.py
lines 413-424): the index of the first stage with the given name, or `none`
(the unknown name is ignored, never raised). -/
def advance_idx (stages : List Stage) (name : String) : Option Nat :=
  match stages with
  | [] => none
  | st :: rest =>
    if st.name = name then some 0 else (advance_idx rest name).map (· + 1)

/-- The global percentage computed by `CicadaProgress.update` (nodes.py
line 435) before display: `stage.start_pct + stage.span_pct * inner / 100`,
double arithmetic idealized as exact rationals.  At `inner = 0` the float
computation is itself exact (`span * 0 = 0.0`, `0.0 / 100 = 0.0`,
`start + 0.0 = start`), so the `update(0)` facts proved below transfer to the
program verbatim. -/
def update_global (stages : List Stage) (idx : Nat) (inner : ℚ) : Option ℚ :=
  (stages.get? idx).map (fun st => st.start_pct + st.span_pct * inner / 100)

/-- The value `CicadaProgress.update` displays. -/
def update_display (stages : List Stage) (idx : Nat) (inner : ℚ) : Option ℤ :=
  (update_global stages idx inner).map set_progress_pct

/-! ## Job pollers (nodes.py lines 1131-1188, 1519-1594, 1596-1700)

Each poll iteration's interaction with `api_json_request` is an explicit
input: either the parsed `data` payload or the exception the request raised.
The wall-clock timeout corresponds to the input list running out. -/

/-- One poll iteration's outcome: the parsed `result["data"]`, or the
exception raised by `api_json_request`. -/
inductive PollIn (α : Type) where
  | resp (d : α)
  | failed (e : String)
  deriving DecidableEq, Repr

/-- `max_consecutive_errors = 5` (nodes.py lines 1530, 1607). -/
def max_consecutive_errors : Nat := 5

/-- `result["data"]` of the lip-sync detail endpoint. -/
structure LipResp where
  status : ℤ
  progress : ℤ
  msg : String
  video_url : String
  deriving DecidableEq, Repr

/-- A `progress.update` event emitted by `_poll_lip_sync`: while queued the
inner percentage is `min(15, api_progress)` (nodes.py line 1162); while
rendering it is the remote percentage (line 1164); `done` is the final
`update(100)` on success (line 1177). -/
inductive PEvent where
  | queued (pct : ℤ)
  | render (pct : ℤ)
  | done
  deriving DecidableEq, Repr

/-- Exceptions of `_poll_lip_sync`. -/
inductive LipErr where
  | timeout
  | requestFailed (e : String)
  | noUrl
  | billing
  | renderFailed (msg : String)
  deriving DecidableEq, Repr

/-- Result of `_poll_lip_sync`. -/
inductive LipResult where
  | ok (url : String)
  | err (e : LipErr)
  deriving DecidableEq, Repr

/-- Embeds `CicadaLipSyncNode._poll_lip_sync` (nodes.py lines 1131-1188),
returning the result together with the trace of `progress.update` events.
The loop body has no exception handler, so a `failed` poll input aborts the
poll immediately.  `last_status` / `last_progress` start at `-1`; when the
dedup condition `status != last_status or api_progress != last_progress` is
false, the pair already equals `(d.status, d.progress)`, so the recursive
call passes the current pair in both cases. -/
def poll_lip_sync : List (PollIn LipResp) → ℤ → ℤ → LipResult × List PEvent
  | [], _, _ => (.err .timeout, [])
  | .failed e :: _, _, _ => (.err (.requestFailed e), [])
  | .resp d :: rest, last_status, last_progress =>
    let evs : List PEvent :=
      if d.status ≠ last_status ∨ d.progress ≠ last_progress then
        if d.status = 0 then [.queued (min 15 d.progress)] else [.render d.progress]
      else []
    if d.status = 20 then
      if d.video_url = "" then (.err .noUrl, evs)
      else (.ok d.video_url, evs ++ [.done])
    else if d.status = 30 then
      if check_billing_error d.msg then (.err .billing, evs)
      else (.err (.renderFailed d.msg), evs)
    else
      let next := poll_lip_sync rest d.status d.progress
      (next.1, evs ++ next.2)

/-- `result["data"]` of the voice-clone query endpoint. -/
structure CloneResp where
  status : ℤ
  progress : ℤ
  err_msg : String
  deriving DecidableEq, Repr

/-- Exceptions of `_poll_voice_clone`. -/
inductive CloneErr where
  | timeout
  | consecutiveFailures (lastErr : String)
  | billing
  | cloneFailed (msg : String)
  | expired
  | deleted
  deriving DecidableEq, Repr

/-- Result of `_poll_voice_clone`. -/
inductive CloneResult where
  | ok
  | err (e : CloneErr)
  deriving DecidableEq, Repr

/-- Embeds `CicadaVoiceCloneNode._poll_voice_clone` (nodes.py
lines 1519-1594). `consec` is `consecutive_errors`; a failed request
increments it and aborts at `max_consecutive_errors`, a successful request
resets it to `0`. As in `poll_lip_sync` the dedup state is passed as the
current `(status, progress)` pair. -/
def poll_voice_clone : List (PollIn CloneResp) → Nat → ℤ → ℤ → CloneResult
  | [], _, _, _ => .err .timeout
  | .failed e :: rest, consec, ls, lp =>
    if consec + 1 ≥ max_consecutive_errors then .err (.consecutiveFailures e)
    else poll_voice_clone rest (consec + 1) ls lp
  | .resp d :: rest, _, _, _ =>
    -- `consecutive_errors = 0` (nodes.py line 1551)
    if d.status = 2 then .ok
    else if d.status = 4 then
      if check_billing_error d.err_msg then .err .billing
      else .err (.cloneFailed d.err_msg)
    else if d.status = 3 then .err .expired
    else if d.status = 99 then .err .deleted
    else poll_voice_clone rest 0 d.status d.progress

/-- `result["data"]` of the audio-synthesis state endpoint; `url` is
`data.get("full", {}).get("url", "")`. -/
structure SynthResp where
  status : ℤ
  errMsg : String
  errReason : String
  url : String
  deriving DecidableEq, Repr

/-- Exceptions of `_poll_audio_synthesis`. -/
inductive SynthErr where
  | timeout
  | consecutiveFailures (lastErr : String)
  | billing
  | synthFailed (msg reason : String)
  | noUrl
  deriving DecidableEq, Repr

/-- Result of `_poll_audio_synthesis`. -/
inductive SynthResult where
  | ok (url : String)
  | err (e : SynthErr)
  deriving DecidableEq, Repr

/-- Embeds `CicadaVoiceCloneNode._poll_audio_synthesis` (nodes.py
lines 1596-1700). `pollCount` is `poll_count` (drives only the synthesized
progress estimate and sleep length, kept for faithfulness of the loop
state); `consec` is `consecutive_errors`. On `status == 9` the billing
check runs on a non-empty `errMsg` before the generic failure; success
additionally requires a non-empty result URL. Both `status == 1` and any
unknown status continue polling. -/
def poll_audio_synthesis : List (PollIn SynthResp) → Nat → Nat → SynthResult
  | [], _, _ => .err .timeout
  | .failed e :: rest, pollCount, consec =>
    if consec + 1 ≥ max_consecutive_errors then .err (.consecutiveFailures e)
    else poll_audio_synthesis rest pollCount (consec + 1)
  | .resp d :: rest, pollCount, _ =>
    -- `consecutive_errors = 0` (nodes.py line 1629)
    if d.status = 9 then
      if ¬d.errMsg.isEmpty then
        if check_billing_error d.errMsg then .err .billing
        else .err (.synthFailed d.errMsg d.errReason)
      else if d.url = "" then .err .noUrl
      else .ok d.url
    else poll_audio_synthesis rest (pollCount + 1) 0

/-! ## Helper lemmas -/

/-- Overwriting insertion is found by lookup (map case). -/
theorem lookupKey_map_overwrite (k : String) (e : CloneEntry) :
    ∀ c : CloneCache, c.any (fun p => p.1 = k) = true →
      lookupKey (c.map (fun p => if p.1 = k then (k, e) else p)) k = some e := by
  intro c
  induction c with
  | nil => intro hany; simp at hany
  | cons p rest ih =>
    intro hany
    by_cases hp : p.1 = k
    · simp [lookupKey, hp]
    · have hrest : rest.any (fun p => p.1 = k) = true := by
        simp [List.any_cons, hp] at hany
        simpa using hany
      simp [lookupKey, hp, ih hrest]

/-- Appending insertion is found by lookup (append case). -/
theorem lookupKey_append_new (k : String) (e : CloneEntry) :
    ∀ c : CloneCache, c.any (fun p => p.1 = k) = false →
      lookupKey (c ++ [(k, e)]) k = some e := by
  intro c
  induction c with
  | nil => intro _; simp [lookupKey]
  | cons p rest ih =>
    intro hany
    rw [List.any_cons, Bool.or_eq_false_iff] at hany
    have hp : ¬ p.1 = k := of_decide_eq_false hany.1
    simp [lookupKey, hp, ih hany.2]

/-- `lookupKey` after `insertKey` at the same key. -/
theorem lookupKey_insertKey (c : CloneCache) (k : String) (e : CloneEntry) :
    lookupKey (insertKey c k e) k = some e := by
  unfold insertKey
  by_cases hany : c.any (fun p => p.1 = k) = true
  · simp [hany, lookupKey_map_overwrite k e c hany]
  · simp only [Bool.not_eq_true] at hany
    simp [hany, lookupKey_append_new k e c hany]

/-- `lookupKey` after `eraseKey` at the same key. -/
theorem lookupKey_eraseKey (c : CloneCache) (k : String) :
    lookupKey (eraseKey c k) k = none := by
  induction c with
  | nil => rfl
  | cons p rest ih =>
    by_cases hp : p.1 = k
    · simpa [eraseKey, hp] using ih
    · simpa [eraseKey, lookupKey, hp] using ih

/-- Characterization of a successful `refreshToken`. -/
theorem refreshToken_ok (h : String) (now : ℚ) (r : RefreshOutcome)
    (t : String) (src : TokenSource) (st' : TokenState)
    (hok : refreshToken h now r = .ok t src st') :
    src = .refreshed ∧ st' = ⟨some t, now + 24 * 3600, some h⟩ := by
  cases r with
  | fail => simp [refreshToken] at hok
  | ok tok =>
    cases tok with
    | none => simp [refreshToken] at hok
    | some s =>
      by_cases hs : s.isEmpty
      · simp [refreshToken, hs] at hok
      · simp only [refreshToken, hs, if_false, Bool.false_eq_true] at hok
        cases hok
        exact ⟨rfl, rfl⟩

/-- Characterization of a successful `get_token_disk`. -/
theorem get_token_disk_ok (st2 : TokenState) (h : String) (now : ℚ)
    (r : RefreshOutcome) (t : String) (src : TokenSource) (st' : TokenState)
    (hok : get_token_disk st2 h now r = .ok t src st') :
    (src = .disk ∧ st' = st2 ∧ st2.token = some t ∧
      now < st2.token_expire - 300 ∧ st2.token_config_hash = some h) ∨
    (src = .refreshed ∧ st' = ⟨some t, now + 24 * 3600, some h⟩) := by
  unfold get_token_disk at hok
  split at hok
  next t2 heq =>
    split at hok
    next hguard =>
      cases hok
      exact .inl ⟨rfl, rfl, heq, hguard.2.1, hguard.2.2⟩
    next => exact .inr (refreshToken_ok h now r t src st' hok)
  next => exact .inr (refreshToken_ok h now r t src st' hok)

/-- Characterization of a successful `get_token_cached`. -/
theorem get_token_cached_ok (st1 : TokenState) (h : String) (dr : DiskRead)
    (now : ℚ) (r : RefreshOutcome) (t : String) (src : TokenSource)
    (st' : TokenState)
    (hok : get_token_cached st1 h dr now r = .ok t src st') :
    (src = .memory ∧ st' = st1 ∧ st1.token = some t ∧
      now < st1.token_expire - 300) ∨
    (st1.token = none ∧ src = .disk ∧ st' = loadTokenCache st1 dr ∧
      (loadTokenCache st1 dr).token = some t ∧
      now < (loadTokenCache st1 dr).token_expire - 300 ∧
      (loadTokenCache st1 dr).token_config_hash = some h) ∨
    (src = .refreshed ∧ st' = ⟨some t, now + 24 * 3600, some h⟩) := by
  unfold get_token_cached at hok
  split at hok
  next t1 heq =>
    split at hok
    next hguard =>
      cases hok
      exact .inl ⟨rfl, rfl, heq, hguard.2⟩
    next => exact .inr (.inr (refreshToken_ok h now r t src st' hok))
  next heq =>
    rcases get_token_disk_ok _ h now r t src st' hok with
      ⟨hsrc, hst, htok, hfresh, hhash⟩ | hrefresh
    · exact .inr (.inl ⟨heq, hsrc, hst, htok, hfresh, hhash⟩)
    · exact .inr (.inr hrefresh)

/-! ## Claim theorems -/

/-- C10: for every content hash `h`, model identifier `m` and voice id `v`,
`put(h, m, v)` followed by `get(h, m)` returns `v`, and `remove(h, m)`
followed by `get(h, m)` returns `None`, regardless of the cache's prior
contents. -/
theorem C10_cache_roundtrip (c : CloneCache) (h m v : String) (t : ℚ) :
    cache_get (cache_put c h m v t) h m = some v ∧
    cache_get (cache_remove c h m) h m = none := by
  constructor
  · simp [cache_get, cache_put, lookupKey_insertKey]
  · simp [cache_get, cache_remove, lookupKey_eraseKey]

/-- C4: every declared option of the lip-sync node's `model` input produces
the numeric model value `0`, because the comparison selecting value `1` tests
equality with `"cicada-lip-sync pro"`, which is not a declared option. -/
theorem C4_model_value_always_zero (m : String)
    (hm : m ∈ lip_sync_model_options) :
    lip_sync_model_value m = 0 ∧ "cicada-lip-sync pro" ∉ lip_sync_model_options := by
  refine ⟨?_, by decide⟩
  simp only [lip_sync_model_options, List.mem_cons, List.mem_singleton,
    List.not_mem_nil, or_false] at hm
  rcases hm with rfl | rfl <;> decide

/-- C4 witness at the option `"cicada-lip-sync-pro"`. -/
theorem C4_witness :
    lip_sync_model_value "cicada-lip-sync-pro" = 0 ∧
    "cicada-lip-sync pro" ∉ lip_sync_model_options :=
  C4_model_value_always_zero "cicada-lip-sync-pro" (by decide)

/-- C2: whenever `get_token()` returns a token (rather than raising), the
token satisfies `now < expire_time - 300` for the expiry recorded with it in
the final state (a refresh records `now + 24h`). -/
theorem C2_token_freshness (st : TokenState) (h : String) (dr : DiskRead)
    (now : ℚ) (r : RefreshOutcome) (t : String) (src : TokenSource)
    (st' : TokenState) (hok : get_token st h dr now r = .ok t src st') :
    now < st'.token_expire - 300 := by
  unfold get_token at hok
  rcases get_token_cached_ok _ h dr now r t src st' hok with
    ⟨-, rfl, -, hfresh⟩ | ⟨-, -, rfl, -, hfresh, -⟩ | ⟨-, rfl⟩
  · exact hfresh
  · exact hfresh
  · show now < now + 24 * 3600 - 300
    linarith

/-- C2 witness: a first-ever run (no state, no cache file) at time `0` with a
successful refresh returns a token whose recorded expiry satisfies the
freshness bound. -/
theorem C2_witness :
    (0 : ℚ) <
      (TokenState.mk (some "new") 86400 (some "B")).token_expire - 300 :=
  C2_token_freshness ⟨none, 0, none⟩ "B" .missing 0 (.ok (some "new"))
    "new" .refreshed ⟨some "new", 86400, some "B"⟩ (by
      norm_num [get_token, get_token_cached, get_token_disk, loadTokenCache,
        refreshToken, clearTok]
      intro hempty
      exact absurd hempty (by decide))

/-- C1: a returned token is never bound to a stale fingerprint: the final
state binds the current fingerprint; the memory fast path is taken only when
the held token's fingerprint equals the current one; the disk path only when
the disk-cached fingerprint equals the current one; and when both the held
and the disk-cached fingerprints differ from the current one, the token is
obtained by a refresh. -/
theorem C1_fingerprint_invalidation (st : TokenState) (B : String)
    (dr : DiskRead) (now : ℚ) (r : RefreshOutcome) (t : String)
    (src : TokenSource) (st' : TokenState)
    (hok : get_token st B dr now r = .ok t src st') :
    st'.token_config_hash = some B ∧
    (src = .memory → st.token_config_hash = some B) ∧
    (src = .disk → dr.hash = some B) ∧
    (st.token_config_hash ≠ some B → dr.hash ≠ some B → src = .refreshed) := by
  unfold get_token at hok
  by_cases hch : st.token_config_hash = some B
  · rw [if_pos hch] at hok
    rcases get_token_cached_ok st B dr now r t src st' hok with
      ⟨hsrc, hst, -, -⟩ | ⟨hnone, hsrc, hst, htok, -, hhash⟩ | ⟨hsrc, hst⟩
    · subst hst
      refine ⟨hch, fun _ => hch, ?_, ?_⟩
      · intro hd
        rw [hsrc] at hd
        simp at hd
      · intro hc _
        exact absurd hch hc
    · subst hst
      refine ⟨hhash, ?_, ?_, ?_⟩
      · intro hm
        rw [hsrc] at hm
        simp at hm
      · intro _
        cases dr with
        | missing => simp [loadTokenCache, hnone] at htok
        | corrupt => simp [loadTokenCache, clearTok] at htok
        | data tok e hh => simpa [loadTokenCache, DiskRead.hash] using hhash
      · intro _ hdr
        exfalso
        cases dr with
        | missing => simp [loadTokenCache, hnone] at htok
        | corrupt => simp [loadTokenCache, clearTok] at htok
        | data tok e hh =>
          exact hdr (by simpa [loadTokenCache, DiskRead.hash] using hhash)
    · subst hst
      refine ⟨rfl, ?_, ?_, fun _ _ => hsrc⟩
      · intro hm
        rw [hsrc] at hm
        simp at hm
      · intro hd
        rw [hsrc] at hd
        simp at hd
  · rw [if_neg hch] at hok
    rcases get_token_cached_ok clearTok B dr now r t src st' hok with
      ⟨-, -, htok, -⟩ | ⟨-, hsrc, hst, htok, -, hhash⟩ | ⟨hsrc, hst⟩
    · exact absurd htok (by simp [clearTok])
    · subst hst
      refine ⟨hhash, ?_, ?_, ?_⟩
      · intro hm
        rw [hsrc] at hm
        simp at hm
      · intro _
        cases dr with
        | missing => simp [loadTokenCache, clearTok] at htok
        | corrupt => simp [loadTokenCache, clearTok] at htok
        | data tok e hh => simpa [loadTokenCache, DiskRead.hash] using hhash
      · intro _ hdr
        exfalso
        cases dr with
        | missing => simp [loadTokenCache, clearTok] at htok
        | corrupt => simp [loadTokenCache, clearTok] at htok
        | data tok e hh =>
          exact hdr (by simpa [loadTokenCache, DiskRead.hash] using hhash)
    · subst hst
      refine ⟨rfl, ?_, ?_, fun _ _ => hsrc⟩
      · intro hm
        rw [hsrc] at hm
        simp at hm
      · intro hd
        rw [hsrc] at hd
        simp at hd

/-- The retry loop on all-transient outcomes: every attempt is consumed and
the terminal error carries the last transient exception. -/
theorem api_request_go_all_transient (outcomes : Nat → AttemptOutcome) :
    ∀ (remaining idx : Nat) (last : Option String),
      (∀ i, i < remaining → ((outcomes (idx + i)).transientMsg).isSome = true) →
      api_request_go outcomes remaining idx last =
        .exhausted (match remaining with
          | 0 => last
          | n + 1 => (outcomes (idx + n)).transientMsg) := by
  intro remaining
  induction remaining with
  | zero => intro idx last _; rfl
  | succ n ih =>
    intro idx last h
    have h0 := h 0 (by omega)
    rw [Nat.add_zero] at h0
    have hsh : ∀ i, i < n → ((outcomes (idx + 1 + i)).transientMsg).isSome = true := by
      intro i hi
      have := h (i + 1) (by omega)
      rwa [show idx + (i + 1) = idx + 1 + i by omega] at this
    cases houtcome : outcomes idx with
    | ok r => rw [houtcome] at h0; simp [AttemptOutcome.transientMsg] at h0
    | httpErr e => rw [houtcome] at h0; simp [AttemptOutcome.transientMsg] at h0
    | otherExc e => rw [houtcome] at h0; simp [AttemptOutcome.transientMsg] at h0
    | connErr e =>
      rw [show api_request_go outcomes (n + 1) idx last =
            api_request_go outcomes n (idx + 1) (some e) by
          simp [api_request_go, houtcome]]
      rw [ih (idx + 1) (some e) hsh]
      cases n with
      | zero => simp [houtcome, AttemptOutcome.transientMsg]
      | succ m =>
        show ReqResult.exhausted ((outcomes (idx + 1 + m)).transientMsg) =
          ReqResult.exhausted ((outcomes (idx + (m + 1))).transientMsg)
        rw [show idx + 1 + m = idx + (m + 1) by omega]
    | timeoutErr e =>
      rw [show api_request_go outcomes (n + 1) idx last =
            api_request_go outcomes n (idx + 1) (some e) by
          simp [api_request_go, houtcome]]
      rw [ih (idx + 1) (some e) hsh]
      cases n with
      | zero => simp [houtcome, AttemptOutcome.transientMsg]
      | succ m =>
        show ReqResult.exhausted ((outcomes (idx + 1 + m)).transientMsg) =
          ReqResult.exhausted ((outcomes (idx + (m + 1))).transientMsg)
        rw [show idx + 1 + m = idx + (m + 1) by omega]

/-- C6: connection-level and timeout errors are retried (passing the
exception along as `last_exception`), an HTTP status error or other
exception propagates immediately on the attempt where it occurs, a
successful attempt returns immediately, exhausting the budget on transient
errors raises the terminal error carrying the last exception, and the
default budget is 3 attempts. -/
theorem C6_retry_policy (outcomes : Nat → AttemptOutcome)
    (remaining idx maxR : Nat) (last : Option String) (e : String) (resp : Nat) :
    (outcomes idx = .httpErr e →
      api_request_go outcomes (remaining + 1) idx last = .raised e) ∧
    (outcomes idx = .connErr e →
      api_request_go outcomes (remaining + 1) idx last =
        api_request_go outcomes remaining (idx + 1) (some e)) ∧
    (outcomes idx = .timeoutErr e →
      api_request_go outcomes (remaining + 1) idx last =
        api_request_go outcomes remaining (idx + 1) (some e)) ∧
    (outcomes idx = .ok resp →
      api_request_go outcomes (remaining + 1) idx last = .ok resp) ∧
    ((∀ i, i < maxR + 1 → ((outcomes i).transientMsg).isSome = true) →
      api_request (maxR + 1) outcomes = .exhausted ((outcomes maxR).transientMsg)) ∧
    api_request_default_retries = 3 := by
  refine ⟨?_, ?_, ?_, ?_, ?_, rfl⟩
  · intro h; simp [api_request_go, h]
  · intro h; simp [api_request_go, h]
  · intro h; simp [api_request_go, h]
  · intro h; simp [api_request_go, h]
  · intro hall
    unfold api_request
    rw [api_request_go_all_transient outcomes (maxR + 1) 0 none
      (by intro i hi; rw [Nat.zero_add]; exact hall i hi)]
    show ReqResult.exhausted ((outcomes (0 + maxR)).transientMsg) =
      ReqResult.exhausted ((outcomes maxR).transientMsg)
    rw [Nat.zero_add]

/-- C6 witness: three consecutive connection errors exhaust the default
budget and surface the last exception. -/
theorem C6_witness :
    api_request 3 (fun _ => .connErr "econn") = .exhausted (some "econn") := by
  have h := (C6_retry_policy (fun _ => .connErr "econn") 0 0 2 none "x" 0).2.2.2.2.1
  exact h (fun i _ => rfl)

/-- C3: on an auth-failure envelope code (10400 or 10401) in a call not yet
auth-retried, the request is re-issued once with the refreshed token
substituted into its `access_token` header; any call already flagged as
auth-retried consumes exactly one response (so the token-refresh request,
issued with the flag set, can never recurse), and an auth-failure code on
such a call is terminal. -/
theorem C3_auth_retry (refresh_tok : String) (r1 r2 : Envelope)
    (rest rest2 : List Envelope) (headers : List (String × String))
    (refresh : Option String)
    (hauth : r1.code = 10400 ∨ r1.code = 10401) :
    (api_json_request (some refresh_tok) (r1 :: rest) headers false =
      match api_json_request (some refresh_tok) rest
          (update_auth_header headers refresh_tok) true with
      | .ok env tr => .ok env (headers :: tr)
      | .err e tr => .err e (headers :: tr)) ∧
    (api_json_request refresh (r2 :: rest2) headers true =
      api_json_request refresh [r2] headers true) ∧
    (r2.code = 10400 ∨ r2.code = 10401 →
      api_json_request refresh (r2 :: rest2) headers true =
        .err (.authTerminal r2.code r2.msg) [headers]) ∧
    (refresh_token_request refresh (r2 :: rest2) =
      refresh_token_request refresh [r2]) := by
  have h0 : ¬ r1.code = 0 := by rcases hauth with h | h <;> omega
  refine ⟨?_, ?_, ?_, ?_⟩
  · simp only [api_json_request]
    rw [if_neg h0, if_pos ⟨hauth, by simp⟩]
  · simp only [api_json_request]
    split_ifs with h1 h2 h3 <;> first | rfl | exact absurd h2.2 (by simp)
  · intro hauth2
    have h02 : ¬ r2.code = 0 := by rcases hauth2 with h | h <;> omega
    simp only [api_json_request]
    rw [if_neg h02, if_neg (by simp), if_pos hauth2]
  · unfold refresh_token_request
    simp only [api_json_request]
    split_ifs with h1 h2 h3 <;> first | rfl | exact absurd h2.2 (by simp)

/-- C3 witness: a call answered first with code 10401 and then, after the
refresh, with code 0, is issued exactly twice — the second time with the
refreshed token in its headers — and returns the second envelope. -/
theorem C3_witness :
    api_json_request (some "new") [⟨10401, "expired", 0⟩, ⟨0, "ok", 1⟩]
      [("access_token", "old")] false =
    .ok ⟨0, "ok", 1⟩ [[("access_token", "old")], [("access_token", "new")]] := by
  have h := (C3_auth_retry "new" ⟨10401, "expired", 0⟩ ⟨0, "ok", 1⟩
    [⟨0, "ok", 1⟩] [] [("access_token", "old")] none (Or.inr rfl)).1
  rw [h]
  rfl

/-- C9: a speech-synthesis poll observing terminal status 9 with a non-empty
`errMsg` containing the billing keyword `余额不足` raises the distinguished
billing error, not the generic synthesis failure. -/
theorem C9_billing_over_generic (d : SynthResp) (rest : List (PollIn SynthResp))
    (pollCount consec : Nat) (hstatus : d.status = 9) (hne : d.errMsg ≠ "")
    (hkw : strContains d.errMsg "余额不足" = true) :
    poll_audio_synthesis (.resp d :: rest) pollCount consec = .err .billing := by
  have hie : d.errMsg.isEmpty = false := by
    cases hIE : d.errMsg.isEmpty with
    | false => rfl
    | true => exact absurd ((String.isEmpty_iff d.errMsg).mp hIE) hne
  have hbill : check_billing_error d.errMsg = true := by
    unfold check_billing_error
    rw [Bool.and_eq_true]
    refine ⟨by rw [hie]; rfl, ?_⟩
    exact List.any_eq_true.mpr ⟨"余额不足", by simp [billing_keywords], hkw⟩
  simp [poll_audio_synthesis, hstatus, hie, hbill]

/-- C9 witness at a concrete insufficient-balance response. -/
theorem C9_witness :
    poll_audio_synthesis [.resp ⟨9, "余额不足", "", ""⟩] 0 0 = .err .billing :=
  C9_billing_over_generic ⟨9, "余额不足", "", ""⟩ [] 0 0 rfl (by decide) (by decide)

/-- C1 witness: with a held token bound to fingerprint `"A"` and current
fingerprint `"B"`, `get_token` discards the held token, refreshes, and the
final state binds `"B"`. -/
theorem C1_witness :
    (TokenState.mk (some "new") 86400 (some "B")).token_config_hash = some "B" ∧
    TokenSource.refreshed = TokenSource.refreshed := by
  have hmain := C1_fingerprint_invalidation ⟨some "tokA", 1000000, some "A"⟩
    "B" .missing 0 (.ok (some "new")) "new" .refreshed
    ⟨some "new", 86400, some "B"⟩ (by
      unfold get_token
      rw [if_neg (by decide)]
      norm_num [get_token_cached, get_token_disk, loadTokenCache,
        refreshToken, clearTok]
      intro hempty
      exact absurd hempty (by decide))
  exact ⟨hmain.1, hmain.2.2.2 (by decide) (by decide)⟩

/-- Events emitted by one poll iteration of `_poll_lip_sync`: any queued
event carries `min(15, api_progress)`. -/
theorem queued_mem_step_evs (d : LipResp) (ls lp p : ℤ)
    (hmem : PEvent.queued p ∈ (if d.status ≠ ls ∨ d.progress ≠ lp then
        if d.status = 0 then [PEvent.queued (min 15 d.progress)]
        else [PEvent.render d.progress]
      else [])) : p ≤ 15 := by
  split at hmem
  · split at hmem
    · simp only [List.mem_singleton, PEvent.queued.injEq] at hmem
      subst hmem
      exact min_le_left 15 d.progress
    · simp at hmem
  · simp at hmem

/-- Every queued event reported by `_poll_lip_sync` is at most 15. -/
theorem poll_lip_sync_queued_le (inputs : List (PollIn LipResp)) :
    ∀ (ls lp p : ℤ), PEvent.queued p ∈ (poll_lip_sync inputs ls lp).2 → p ≤ 15 := by
  induction inputs with
  | nil => intro ls lp p hmem; simp [poll_lip_sync] at hmem
  | cons x rest ih =>
    intro ls lp p hmem
    cases x with
    | failed e => simp [poll_lip_sync] at hmem
    | resp d =>
      simp only [poll_lip_sync] at hmem
      split at hmem
      · split at hmem
        · exact queued_mem_step_evs d ls lp p hmem
        · rw [List.mem_append] at hmem
          rcases hmem with hmem | hmem
          · exact queued_mem_step_evs d ls lp p hmem
          · simp at hmem
      · split at hmem
        · split at hmem
          · exact queued_mem_step_evs d ls lp p hmem
          · exact queued_mem_step_evs d ls lp p hmem
        · rw [List.mem_append] at hmem
          rcases hmem with hmem | hmem
          · exact queued_mem_step_evs d ls lp p hmem
          · exact ih d.status d.progress p hmem

/-- C8: on the status sequence [queued 0%, queued 40%, rendering 10%,
rendering 100%, succeeded with URL] the lip-sync poller returns the URL,
reporting queued progress capped at 15; in general every reported queued
percentage is at most 15, and a success status with an empty result URL is a
terminal error. -/
theorem C8_lip_sync_scenario :
    poll_lip_sync [.resp ⟨0, 0, "", ""⟩, .resp ⟨0, 40, "", ""⟩,
        .resp ⟨10, 10, "", ""⟩, .resp ⟨10, 100, "", ""⟩,
        .resp ⟨20, 100, "", "https://x/video.mp4"⟩] (-1) (-1) =
      (.ok "https://x/video.mp4",
        [.queued 0, .queued 15, .render 10, .render 100, .render 100, .done]) ∧
    (∀ (inputs : List (PollIn LipResp)) (ls lp p : ℤ),
      PEvent.queued p ∈ (poll_lip_sync inputs ls lp).2 → p ≤ 15) ∧
    (∀ (d : LipResp) (rest : List (PollIn LipResp)) (ls lp : ℤ),
      d.status = 20 → d.video_url = "" →
      (poll_lip_sync (.resp d :: rest) ls lp).1 = .err .noUrl) := by
  refine ⟨by decide, poll_lip_sync_queued_le, ?_⟩
  intro d rest ls lp h20 hurl
  simp only [poll_lip_sync]
  rw [if_pos h20, if_pos hurl]

/-- C8 witness: a queued poll reporting 40% is capped at 15, and a success
response with an empty URL errs. -/
theorem C8_witness :
    (15 : ℤ) ≤ 15 ∧
    (poll_lip_sync [.resp ⟨20, 100, "", ""⟩] (-1) (-1)).1 = .err .noUrl := by
  have h := C8_lip_sync_scenario
  exact ⟨h.2.1 [.resp ⟨0, 40, "", ""⟩] (-1) (-1) 15 (by decide),
    h.2.2 ⟨20, 100, "", ""⟩ [] (-1) (-1) rfl rfl⟩

/-- C5 counterexample: the lip-sync poller has no consecutive-failure
tolerance — a single failed polling request aborts it, even though the very
next poll would have returned the result URL. -/
theorem C5_lip_sync_counterexample :
    (poll_lip_sync [.failed "connection reset",
        .resp ⟨20, 100, "", "https://x/video.mp4"⟩] (-1) (-1)).1 =
      .err (.requestFailed "connection reset") ∧
    (poll_lip_sync [.resp ⟨20, 100, "", "https://x/video.mp4"⟩] (-1) (-1)).1 =
      .ok "https://x/video.mp4" := by
  exact ⟨rfl, by decide⟩

/-- C5 (amended): the voice-clone and speech-synthesis pollers tolerate a
failed polling request while fewer than 5 consecutive failures have occurred,
abort with a terminal error at the 5th consecutive failure, and reset the
consecutive-failure counter to 0 on any successful poll; the lip-sync poller
has no such tolerance — its first failed polling request aborts the poll. -/
theorem C5_poller_failure_budget (ec : String) (restC : List (PollIn CloneResp))
    (restS : List (PollIn SynthResp)) (restL : List (PollIn LipResp))
    (consec pollCount : Nat) (ls lp : ℤ) (dC : CloneResp) (dS : SynthResp) :
    (consec + 1 < max_consecutive_errors →
      poll_voice_clone (.failed ec :: restC) consec ls lp =
        poll_voice_clone restC (consec + 1) ls lp) ∧
    (max_consecutive_errors ≤ consec + 1 →
      poll_voice_clone (.failed ec :: restC) consec ls lp =
        .err (.consecutiveFailures ec)) ∧
    (dC.status ≠ 2 → dC.status ≠ 4 → dC.status ≠ 3 → dC.status ≠ 99 →
      poll_voice_clone (.resp dC :: restC) consec ls lp =
        poll_voice_clone restC 0 dC.status dC.progress) ∧
    (consec + 1 < max_consecutive_errors →
      poll_audio_synthesis (.failed ec :: restS) pollCount consec =
        poll_audio_synthesis restS pollCount (consec + 1)) ∧
    (max_consecutive_errors ≤ consec + 1 →
      poll_audio_synthesis (.failed ec :: restS) pollCount consec =
        .err (.consecutiveFailures ec)) ∧
    (dS.status ≠ 9 →
      poll_audio_synthesis (.resp dS :: restS) pollCount consec =
        poll_audio_synthesis restS (pollCount + 1) 0) ∧
    (poll_lip_sync (.failed ec :: restL) ls lp =
      (.err (.requestFailed ec), [])) := by
  refine ⟨?_, ?_, ?_, ?_, ?_, ?_, rfl⟩
  · intro hlt
    simp only [poll_voice_clone]
    rw [if_neg (by omega)]
  · intro hge
    simp only [poll_voice_clone]
    rw [if_pos (by omega)]
  · intro h2 h4 h3 h99
    simp only [poll_voice_clone]
    rw [if_neg h2, if_neg h4, if_neg h3, if_neg h99]
  · intro hlt
    simp only [poll_audio_synthesis]
    rw [if_neg (by omega)]
  · intro hge
    simp only [poll_audio_synthesis]
    rw [if_pos (by omega)]
  · intro h9
    simp only [poll_audio_synthesis]
    rw [if_neg h9]

/-- C5 witness: one failure is tolerated at counter 0, the 5th consecutive
failure aborts, a successful poll recurses with counter 0, and the lip-sync
poller aborts at once. -/
theorem C5_witness :
    poll_voice_clone [.failed "e1"] 0 (-1) (-1) = poll_voice_clone [] 1 (-1) (-1) ∧
    poll_voice_clone [.failed "e5"] 4 (-1) (-1) = .err (.consecutiveFailures "e5") ∧
    poll_audio_synthesis [.failed "e1"] 0 0 = poll_audio_synthesis [] 0 1 ∧
    poll_voice_clone [.resp ⟨1, 30, ""⟩] 3 (-1) (-1) = poll_voice_clone [] 0 1 30 ∧
    poll_lip_sync [.failed "e1"] (-1) (-1) = (.err (.requestFailed "e1"), []) := by
  have h1 := C5_poller_failure_budget "e1" [] [] [] 0 0 (-1) (-1) ⟨1, 30, ""⟩ ⟨1, "", "", ""⟩
  have h5 := C5_poller_failure_budget "e5" [] [] [] 4 0 (-1) (-1) ⟨1, 30, ""⟩ ⟨1, "", "", ""⟩
  have h3 := C5_poller_failure_budget "e1" [] [] [] 3 0 (-1) (-1) ⟨1, 30, ""⟩ ⟨1, "", "", ""⟩
  exact ⟨h1.1 (by decide), h5.2.1 (by decide), h1.2.2.2.1 (by decide),
    h3.2.2.1 (by decide) (by decide) (by decide) (by decide),
    h1.2.2.2.2.2.2⟩

/-- C7 counterexample: with stage weights `[("a", 1), ("b", 7)]` every value
the program computes is a dyadic rational exactly representable as an
IEEE-754 double (`1/8 = 0.125`, spans `12.5` and `87.5`, cumulative starts
`0` and `12.5`), so the float program and this exact embedding coincide on
this input.  `advance("b")` selects index 1, whose start percentage is
`12.5`; `update(0)` then computes exactly `12.5` but displays the truncation
`int(12.5) = 12`, which is not the stage's start percentage. -/
theorem C7_display_counterexample :
    advance_idx (mk_stages [("a", 1), ("b", 7)]) "b" = some 1 ∧
    update_global (mk_stages [("a", 1), ("b", 7)]) 1 0 = some (25 / 2 : ℚ) ∧
    update_display (mk_stages [("a", 1), ("b", 7)]) 1 0 = some 12 ∧
    (25 / 2 : ℚ) ≠ 12 := by
  have hstages : mk_stages [("a", 1), ("b", 7)] =
      [⟨"a", 0, 25 / 2⟩, ⟨"b", 25 / 2, 175 / 2⟩] := by
    unfold mk_stages total_weight
    norm_num [mk_stages_go]
  have hfloor : ⌊(25 / 2 : ℚ)⌋ = 12 := by
    rw [Int.floor_eq_iff]
    norm_num
  refine ⟨?_, ?_, ?_, by norm_num⟩
  · rw [hstages]
    simp [advance_idx]
  · rw [hstages]
    simp only [update_global, List.get?]
    norm_num
  · rw [hstages]
    simp only [update_display, update_global, List.get?, Option.map_some']
    rw [show (25 / 2 + 175 / 2 * 0 / 100 : ℚ) = 25 / 2 by ring]
    unfold set_progress_pct py_int
    rw [if_neg (by norm_num), hfloor]
    decide

/-- C7 (amended): when `advance(s)` has positioned the cursor on a stage,
`update(0)` passes exactly that stage's computed start percentage to
`_set_progress` — the inner-progress term `span * 0 / 100` vanishes, an
identity that holds in the program's float arithmetic as well — so the
displayed value is the same one `advance(s)` itself displays: the start
percentage truncated to an integer and clamped to `[0, 100]`, not in general
the start percentage itself.  Every displayed percentage is clamped to
`[0, 100]`. -/
theorem C7_progress_amended (stages : List Stage) (name : String) (i : Nat)
    (st : Stage) (q : ℚ) :
    (advance_idx stages name = some i → stages.get? i = some st →
      update_global stages i 0 = some st.start_pct ∧
      update_display stages i 0 = some (set_progress_pct st.start_pct)) ∧
    (0 ≤ set_progress_pct q ∧ set_progress_pct q ≤ 100) := by
  refine ⟨?_, le_max_left 0 _, max_le (by decide) (min_le_left 100 _)⟩
  intro _ hget
  constructor
  · unfold update_global
    rw [hget, Option.map_some']
    norm_num
  · unfold update_display update_global
    rw [hget, Option.map_some', Option.map_some']
    norm_num

/-- C7 witness: at the float-exact stage list of weights `(1, 7)`,
`advance("b")` then `update(0)` passes exactly the start percentage `12.5`
and displays its clamped truncation; displays are clamped to `[0, 100]`. -/
theorem C7_witness :
    (update_global [⟨"a", 0, 25 / 2⟩, ⟨"b", 25 / 2, 175 / 2⟩] 1 0 =
      some ((⟨"b", 25 / 2, 175 / 2⟩ : Stage).start_pct) ∧
     update_display [⟨"a", 0, 25 / 2⟩, ⟨"b", 25 / 2, 175 / 2⟩] 1 0 =
      some (set_progress_pct ((⟨"b", 25 / 2, 175 / 2⟩ : Stage).start_pct))) ∧
    (0 ≤ set_progress_pct (25 / 2) ∧ set_progress_pct (25 / 2) ≤ 100) := by
  have h := C7_progress_amended
    [⟨"a", 0, 25 / 2⟩, ⟨"b", 25 / 2, 175 / 2⟩] "b" 1 ⟨"b", 25 / 2, 175 / 2⟩
    (25 / 2)
  exact ⟨h.1 (by simp [advance_idx]) rfl, h.2⟩

end Cicada
